import Mathlib

/-!
Shallow embedding of the PIX webhook worker (src/src/worker.js, version 0.0.14).

The worker ingests PIX payment notifications (POST /webhook), folds them into
a per-txid credit ledger (D1 table `consultas`, audit table `recebimentos`),
and exposes GET /consulta-recebimento, which reads one ledger entry and resets
its balance, and GET /consulta-database, a whitelisted table dump.

Monetary values are modelled as exact rationals, D1/SQLite statements as pure
functions over an explicit database state, and the per-request control flow
(including the routing layer's try/catch) as `Except`-style results.
-/

namespace PixWorker

/-- JavaScript `Math.round`: round half toward positive infinity. -/
def jsRound (x : ℚ) : ℤ := ⌊x + 1/2⌋

/-- SQLite `ROUND(x, 2)`: round to 2 decimal places, halves away from zero. -/
def sqlRound2 (x : ℚ) : ℚ :=
  if 0 ≤ x then ((⌊x * 100 + 1/2⌋ : ℤ) : ℚ) / 100
  else -(((⌊-x * 100 + 1/2⌋ : ℤ) : ℚ) / 100)

/-- JavaScript truthiness of an optional string (`null`/`undefined` and `""` are falsy). -/
def truthyS : Option String → Bool
  | some s => !(s == "")
  | none => false

/-- JavaScript truthiness of an optional number (`null`/`undefined` and `0` are falsy). -/
def truthyQ : Option ℚ → Bool
  | some q => !(q == 0)
  | none => false

/-- The `gnExtras.pagador` object of a notification item. -/
structure Pagador where
  nome : String
deriving DecidableEq

/-- The `gnExtras` object of a notification item; `pagador` may be absent. -/
structure GnExtras where
  pagador : Option Pagador
deriving DecidableEq

/-- One element of the webhook body's `pix` array (worker.js line 159).
Every field may be absent (`none` models JS `undefined`/`null`); the monetary
`valor` is modelled by its numeric value `Number(valor)`. -/
structure Item where
  horario : Option String
  gnExtras : Option GnExtras
  endToEndId : Option String
  txid : Option String
  chave : Option String
  valor : Option ℚ
deriving DecidableEq

/-- One row of the `recebimentos` audit table (worker.js line 164). -/
structure RecebRow where
  eeid : String
  pagador : String
  datahora : String
  txid : String
  chavepix : String
  valor : ℚ
deriving DecidableEq

/-- One row of the `consultas` ledger table.  The worker reads and writes the
columns `txid`, `valor` and `datahora`; `valorficha` appears in the
`/consulta-database` projection (worker.js line 124) and `pulsos` in the
`/consulta-recebimento` SELECT (line 94).

Modelled from the spec: the `consultas` table schema itself is not part of the
repository (only SQL strings referencing its columns are), so `valorficha` is
the entry's fixed unit price (spec 4.4, "a fixed unit price") and `pulsos` is
a generated column, defined below. -/
structure ConsRow where
  txid : String
  valor : ℚ
  datahora : Option String
  valorficha : ℚ
deriving DecidableEq

/-- Modelled from the spec: the unit price given to a freshly inserted ledger
row (the INSERT at worker.js line 179 names only `txid` and `valor`, so the
unit price of a new row comes from the schema; the spec's unit-dispensing
example and the repository's backup revision both use 50 centavos). -/
def fichaDefault : ℚ := 50

/-- Modelled from the spec: the `pulsos` column of `consultas`, generated from
the stored balance — `units = floor(accruedAmount / unitPrice)` (spec 4.4,
discrete-unit dispensing variant). -/
def pulsos (r : ConsRow) : ℤ := ⌊r.valor / r.valorficha⌋

/-- The D1 database state: the two tables the worker touches. -/
structure DB where
  recebimentos : List RecebRow
  consultas : List ConsRow
deriving DecidableEq

/-- The empty database. -/
def dbEmpty : DB := ⟨[], []⟩

/-- Message of the TypeError thrown by `gnExtras.pagador` when `gnExtras` is
absent (worker.js line 166). -/
def msgPagadorUndefined : String :=
  "TypeError: cannot read pagador of undefined"

/-- Message of the TypeError thrown by `.nome` when `pagador` is absent. -/
def msgNomeUndefined : String :=
  "TypeError: cannot read nome of undefined"

instance : DecidableEq (Except String DB) := fun a b =>
  match a, b with
  | .ok x, .ok y =>
    if h : x = y then isTrue (by rw [h]) else isFalse (by simp [h])
  | .error e, .error f =>
    if h : e = f then isTrue (by rw [h]) else isFalse (by simp [h])
  | .ok _, .error _ => isFalse (by simp)
  | .error _, .ok _ => isFalse (by simp)

/-- `processPixItem` (worker.js lines 158-189).  First branch: if
`endToEndId && txid && chave && valor && horario` are all truthy, INSERT into
`recebimentos`; evaluating the bind arguments dereferences
`gnExtras.pagador.nome`, which throws a TypeError when `gnExtras` (or its
`pagador`) is absent — modelled as `Except.error`.  Second branch: if
`txid && valor != null`, round `Number(valor) * 100` with `Math.round` and
either INSERT a fresh `consultas` row or UPDATE the existing one with
`ROUND(valor + ?, 2)` and the item's `horario`. -/
def processPixItem (item : Item) (db : DB) : Except String DB :=
  let step1 : Except String DB :=
    if truthyS item.endToEndId && truthyS item.txid && truthyS item.chave &&
        truthyQ item.valor && truthyS item.horario then
      match item.gnExtras with
      | none => .error msgPagadorUndefined
      | some g =>
        match g.pagador with
        | none => .error msgNomeUndefined
        | some p =>
          .ok { db with
                recebimentos := db.recebimentos ++
                  [⟨item.endToEndId.getD "", p.nome, item.horario.getD "",
                    item.txid.getD "", item.chave.getD "", item.valor.getD 0⟩] }
    else
      .ok db
  match step1 with
  | .error e => .error e
  | .ok db1 =>
    if truthyS item.txid && item.valor.isSome then
      let v : ℚ := item.valor.getD 0
      let rounded : ℤ := jsRound (v * 100)
      let t : String := item.txid.getD ""
      if (db1.consultas.find? (fun r => r.txid == t)).isSome then
        .ok { db1 with
              consultas := db1.consultas.map (fun r =>
                if r.txid == t then
                  { r with valor := sqlRound2 (r.valor + (rounded : ℚ)),
                           datahora := item.horario }
                else r) }
      else
        .ok { db1 with
              consultas := db1.consultas ++ [⟨t, (rounded : ℚ), none, fichaDefault⟩] }
    else
      .ok db1

/-- The balance column of the first `consultas` row for a txid, if any. -/
def valorOf (db : DB) (t : String) : Option ℚ :=
  (db.consultas.find? (fun r => r.txid == t)).map (fun r => r.valor)

/-- The worker's environment variables (worker.js lines 10-11). -/
structure Env where
  HMAC : String
  HIDE_PARAM : String
  EFI_IP : String
  TEST_PASS : String
deriving DecidableEq

/-- An inbound POST /webhook request, reduced to the data the handler reads:
the value of the hidden query parameter named by `env.HIDE_PARAM`, the
`CF-Connecting-IP` header, the `hmac` query parameter, and the parsed body's
`pix` field (`some items` when it is an array, `none` otherwise). -/
structure WebhookReq where
  hideValue : Option String
  cfIp : Option String
  hmacQuery : Option String
  pix : Option (List Item)
deriving DecidableEq

/-- Whether the request takes the test-mode branch (worker.js line 59):
`url.searchParams.get(env.HIDE_PARAM) === env.TEST_PASS`. -/
def isTest (env : Env) (req : WebhookReq) : Bool :=
  req.hideValue == some env.TEST_PASS

/-- The source address after the test-mode override (worker.js lines 60, 63). -/
def clientIpPost (env : Env) (req : WebhookReq) : Option String :=
  if isTest env req then some env.EFI_IP else req.cfIp

/-- The credential after the test-mode override (worker.js lines 61, 64). -/
def hmacSent (env : Env) (req : WebhookReq) : Option String :=
  if isTest env req then some env.HMAC else req.hmacQuery

/-- Outcome of the webhook's access checks (worker.js lines 67-72). -/
inductive AuthResult where
  | ipDenied
  | invalidHmac
  | ok
deriving DecidableEq

/-- JavaScript falsiness of `hmacParam` (`!hmacParam`): absent or empty. -/
def hmacFalsy : Option String → Bool
  | none => true
  | some s => s == ""

/-- The webhook's authentication decision (worker.js lines 53-72):
reject 403 "IP Denied" unless the post-override client IP strictly equals
`env.EFI_IP`; then reject 401 "Invalid HMAC" when the post-override credential
is falsy or differs from `env.HMAC`; otherwise proceed. -/
def authCheck (env : Env) (req : WebhookReq) : AuthResult :=
  if clientIpPost env req ≠ some env.EFI_IP then .ipDenied
  else if hmacFalsy (hmacSent env req) || hmacSent env req ≠ some env.HMAC then .invalidHmac
  else .ok

/-- An HTTP response, reduced to its status and, for JSON bodies that carry
one, the `success` flag. -/
structure Resp where
  status : Nat
  success : Option Bool
deriving DecidableEq

/-- Runs `processPixItem` over the batch in order (worker.js lines 76-78);
returns the database reached so far together with the first thrown error, if
any (writes of earlier items stay committed when a later item throws). -/
def runItems : List Item → DB → DB × Option String
  | [], db => (db, none)
  | i :: rest, db =>
    match processPixItem i db with
    | .ok db' => runItems rest db'
    | .error e => (db, some e)

/-- `appWebhook` (worker.js lines 53-86) together with the surrounding
routing layer's catch (lines 38-47), which turns an error thrown while
processing the batch into a 500 `{success: false}` response.  An authenticated
request whose body has no `pix` array, or whose batch processes without a
throw, is acknowledged with 200 `{success: true}`. -/
def appWebhook (env : Env) (req : WebhookReq) (db : DB) : Resp × DB :=
  match authCheck env req with
  | .ipDenied => (⟨403, none⟩, db)
  | .invalidHmac => (⟨401, none⟩, db)
  | .ok =>
    match req.pix with
    | none => (⟨200, some true⟩, db)
    | some items =>
      match runItems items db with
      | (db', none) => (⟨200, some true⟩, db')
      | (db', some _) => (⟨500, some false⟩, db')

/-- Result of GET /consulta-recebimento: 404 "ID Not Found." or the JSON
serialization of the selected `pulsos` value. -/
inductive ConsumeOut where
  | notFound
  | ok (v : ℤ)
deriving DecidableEq

/-- HTTP status of a /consulta-recebimento outcome (worker.js lines 97, 108). -/
def consumeStatus : ConsumeOut → Nat
  | .notFound => 404
  | .ok _ => 200

/-- The SELECT of worker.js line 94: first `consultas` row whose `txid` equals
the bound parameter; binding a JS `null` (absent `idmaq`) matches no row. -/
def lookupConsulta (tbl : List ConsRow) (idmaq : Option String) : Option ConsRow :=
  match idmaq with
  | none => none
  | some t => tbl.find? (fun r => r.txid == t)

/-- The UPDATE of worker.js lines 101-104: set `valor = 0` on every row whose
`txid` equals the bound parameter (no row when the parameter is `null`). -/
def zeroValor (tbl : List ConsRow) (idmaq : Option String) : List ConsRow :=
  match idmaq with
  | none => tbl
  | some t => tbl.map (fun r => if r.txid == t then { r with valor := 0 } else r)

/-- `appConsultaRecebimento` (worker.js lines 91-110): SELECT `pulsos` for the
`idmaq` txid; absent row gives 404 and no write; otherwise UPDATE `valor` to 0
and return the previously selected `pulsos`. -/
def appConsultaRecebimento (tbl : List ConsRow) (idmaq : Option String) :
    ConsumeOut × List ConsRow :=
  match lookupConsulta tbl idmaq with
  | none => (.notFound, tbl)
  | some r => (.ok (pulsos r), zeroValor tbl idmaq)

/-- Per-process control point of one in-flight /consulta-recebimento call:
before the SELECT, between SELECT and UPDATE (holding the read value), or
finished with its outcome. -/
inductive Phase where
  | start
  | gotRow (v : ℤ)
  | finished (out : ConsumeOut)
deriving DecidableEq

/-- One atomic D1 statement of a /consulta-recebimento call: the SELECT
(worker.js lines 94-95) or the UPDATE (lines 101-104).  D1 executes each
prepared statement atomically, but nothing serializes the pair, so concurrent
calls interleave at this granularity. -/
def consumeStep (idmaq : Option String) (tbl : List ConsRow) (p : Phase) :
    List ConsRow × Phase :=
  match p with
  | .start =>
    match lookupConsulta tbl idmaq with
    | none => (tbl, .finished .notFound)
    | some r => (tbl, .gotRow (pulsos r))
  | .gotRow v => (zeroValor tbl idmaq, .finished (.ok v))
  | .finished o => (tbl, .finished o)

/-- Runs two concurrent /consulta-recebimento calls on the same `idmaq` under
a schedule: `true` steps the first caller, `false` the second. -/
def consumeRace (idmaq : Option String) :
    List Bool → List ConsRow × Phase × Phase → List ConsRow × Phase × Phase
  | [], st => st
  | b :: rest, (tbl, p1, p2) =>
    if b then
      let (tbl', p1') := consumeStep idmaq tbl p1
      consumeRace idmaq rest (tbl', p1', p2)
    else
      let (tbl', p2') := consumeStep idmaq tbl p2
      consumeRace idmaq rest (tbl', p1, p2')

/-- Outcome of GET /consulta-database, reduced to the status and the table
name interpolated into the SQL string, when a query is issued at all. -/
structure DbOut where
  status : Nat
  queriedTable : Option String
deriving DecidableEq

/-- The table name recebimentos, first element of the whitelist literal at
worker.js line 118. -/
def tblRecebimentos : String := "recebimentos"

/-- The table name consultas, second element of the whitelist literal at
worker.js line 118. -/
def tblConsultas : String := "consultas"

/-- `appConsultaDatabase` (worker.js lines 115-129): unless the `db` query
parameter is exactly recebimentos or consultas, answer 403 with no database
access; otherwise interpolate that name into the SELECT. -/
def appConsultaDatabase (dbParam : Option String) : DbOut :=
  if dbParam = some tblRecebimentos ∨ dbParam = some tblConsultas then
    ⟨200, dbParam⟩
  else
    ⟨403, none⟩

/-! Concrete data used by the counterexamples and witnesses below. -/

/-- Sample txid. -/
def sTx : String := "t"

/-- Sample txid used by the accrual scenarios. -/
def sTx1 : String := "t1"

/-- Sample stored datahora. -/
def sDh : String := "d"

/-- Sample item horario. -/
def sHor : String := "h"

/-- Sample endToEndId. -/
def sEeid : String := "e1"

/-- Sample pix key. -/
def sChave : String := "k"

/-- Sample payer name. -/
def sNome : String := "Alice"

/-- Sample configured shared secret. -/
def sSecret : String := "secret"

/-- Sample configured hidden parameter name. -/
def sHide : String := "hide"

/-- Sample configured trusted address. -/
def sIp : String := "1.2.3.4"

/-- Sample configured test password. -/
def sPass : String := "pass"

/-- The empty string. -/
def sEmpty : String := ""

/-- A query value outside the table whitelist. -/
def sOther : String := "x"

/-- A ledger row for `sTx` with balance 100 centavos and unit price 50. -/
def rowT : ConsRow := ⟨sTx, 100, some sDh, 50⟩

/-- The row `rowT` after its balance is reset. -/
def rowT0 : ConsRow := ⟨sTx, 0, some sDh, 50⟩

/-- A ledger row with balance 5 and unit price 1, so its `pulsos` equals its
balance. -/
def rowRace : ConsRow := ⟨sTx, 5, none, 1⟩

/-- The row `rowRace` after its balance is reset. -/
def rowRace0 : ConsRow := ⟨sTx, 0, none, 1⟩

/-- A fully populated notification item with amount 1.00. -/
def itemDup : Item :=
  ⟨some sHor, some ⟨some ⟨sNome⟩⟩, some sEeid, some sTx1, some sChave, some 1⟩

/-- The `recebimentos` row written for `itemDup`. -/
def recebDup : RecebRow := ⟨sEeid, sNome, sHor, sTx1, sChave, 1⟩

/-- An item with txid and a negative amount but no other field. -/
def itemPartial : Item := ⟨none, none, none, some sTx1, none, some (-5)⟩

/-- An item accruing 10.005 to txid t1 (the fractional-centavo rounding case;
in binary64 as in exact arithmetic, 10.005 * 100 rounds to 1001). -/
def itemTenPoint : Item := ⟨none, none, none, some sTx1, none, some 10.005⟩

/-- An item accruing 5.00 to txid t1. -/
def itemFive : Item := ⟨none, none, none, some sTx1, none, some 5⟩

/-- An item whose five checked fields are all truthy but whose `gnExtras`
object is absent, so the INSERT bind throws. -/
def itemNoPagador : Item := ⟨some sHor, none, some sEeid, some sTx1, some sChave, some 5⟩

/-- A normally configured environment. -/
def envMain : Env := ⟨sSecret, sHide, sIp, sPass⟩

/-- An environment whose configured shared secret is the empty string. -/
def envEmptyHmac : Env := ⟨sEmpty, sHide, sIp, sPass⟩

/-- A request taking the test-mode branch, carrying the given body. -/
def reqTest (pix : Option (List Item)) : WebhookReq := ⟨some sPass, none, none, pix⟩

/-! Helper lemmas. -/

theorem truthyQ_isSome {v : Option ℚ} (h : truthyQ v = true) : v.isSome = true := by
  cases v <;> simp [truthyQ] at h ⊢

theorem lookupConsulta_zeroValor_of_found {tbl : List ConsRow} {t : String} {r : ConsRow}
    (h : lookupConsulta tbl (some t) = some r) :
    lookupConsulta (zeroValor tbl (some t)) (some t) = some { r with valor := 0 } := by
  induction tbl with
  | nil => simp [lookupConsulta] at h
  | cons a rest ih =>
    simp only [lookupConsulta, zeroValor, List.map_cons, List.find?_cons] at h ih ⊢
    cases ha : (a.txid == t) with
    | true =>
      simp only [ha, cond_true] at h
      cases h
      simp [ha]
    | false =>
      simp only [ha, cond_false] at h ⊢
      simpa [ha] using ih h

theorem zeroValor_idem (tbl : List ConsRow) (q : Option String) :
    zeroValor (zeroValor tbl q) q = zeroValor tbl q := by
  cases q with
  | none => rfl
  | some t =>
    induction tbl with
    | nil => rfl
    | cons a rest ih =>
      simp only [zeroValor, List.map_cons] at ih ⊢
      cases ha : (a.txid == t) <;> simp_all [ha]

/-! Theorems for the claims. -/

/-- Claim C1, counterexample: on a ledger entry for txid t with accrued
balance 100 (centavos) and unit price 50, the consume endpoint answers 2
(the generated pulsos value), not the accrued balance 100 — the returned
value is not the accrued balance the claim describes. -/
theorem consume_value_differs_from_balance :
    appConsultaRecebimento [rowT] (some sTx) = (.ok 2, [rowT0])
      ∧ rowT.valor = 100 ∧ (2 : ℤ) ≠ 100 := by
  refine ⟨?_, rfl, by decide⟩
  simp [appConsultaRecebimento, lookupConsulta, zeroValor, pulsos, rowT, rowT0, sTx]
  norm_num

/-- Claim C1, amended: for every txid present in the consultas table, the
consume endpoint returns the pulsos value of the entry (its balance divided
by its unit price, floored) and resets that entry's valor (the accrued
balance) to 0 before returning. -/
theorem consume_returns_pulsos_and_resets_valor (tbl : List ConsRow) (t : String)
    (r : ConsRow) (h : lookupConsulta tbl (some t) = some r) :
    appConsultaRecebimento tbl (some t) = (.ok (pulsos r), zeroValor tbl (some t)) := by
  simp [appConsultaRecebimento, h]

/-- Witness for the amended claim C1 at a concrete ledger. -/
theorem consume_returns_pulsos_and_resets_valor_witness :
    appConsultaRecebimento [rowT] (some sTx)
      = (.ok (pulsos rowT), zeroValor [rowT] (some sTx)) :=
  consume_returns_pulsos_and_resets_valor [rowT] sTx rowT (by simp [lookupConsulta, rowT])

/-- Claim C2: after a successful consume returned some value for a txid, an
immediately following second consume on the same txid returns 0 (the balance
was reset, so the regenerated pulsos value is 0) and leaves the table as the
first call left it — the first non-zero answer is never paid out again. -/
theorem consume_then_consume_returns_zero (tbl : List ConsRow) (q : Option String)
    (v : ℤ) (tbl' : List ConsRow)
    (h : appConsultaRecebimento tbl q = (.ok v, tbl')) :
    appConsultaRecebimento tbl' q = (.ok 0, tbl') := by
  cases q with
  | none => simp [appConsultaRecebimento, lookupConsulta] at h
  | some t =>
    cases hl : lookupConsulta tbl (some t) with
    | none => simp [appConsultaRecebimento, hl] at h
    | some r =>
      rw [appConsultaRecebimento, hl] at h
      obtain ⟨-, htbl⟩ := Prod.mk.injEq .. ▸ h
      subst htbl
      have hfound := lookupConsulta_zeroValor_of_found hl
      rw [appConsultaRecebimento, hfound, zeroValor_idem]
      simp [pulsos]

/-- Witness for claim C2 at a concrete ledger. -/
theorem consume_then_consume_returns_zero_witness :
    appConsultaRecebimento [rowT0] (some sTx) = (.ok 0, [rowT0]) := by
  have h1 : appConsultaRecebimento [rowT] (some sTx) = (.ok 2, [rowT0]) := by
    simp [appConsultaRecebimento, lookupConsulta, zeroValor, pulsos, rowT, rowT0, sTx]
    norm_num
  exact consume_then_consume_returns_zero [rowT] (some sTx) 2 [rowT0] h1

/-- Claim C7: consuming a txid that has no ledger entry answers the 404
NotFound response and performs no write — the table is returned unchanged. -/
theorem consume_unknown_id (tbl : List ConsRow) (q : Option String)
    (h : lookupConsulta tbl q = none) :
    appConsultaRecebimento tbl q = (.notFound, tbl)
      ∧ consumeStatus (appConsultaRecebimento tbl q).1 = 404 := by
  simp [appConsultaRecebimento, h, consumeStatus]

/-- Witness for claim C7 on the empty table. -/
theorem consume_unknown_id_witness :
    appConsultaRecebimento [] (some sTx) = (.notFound, [])
      ∧ consumeStatus (appConsultaRecebimento [] (some sTx)).1 = 404 :=
  consume_unknown_id [] (some sTx) rfl

/-- Claim C3, code evaluated at the failing input: delivering the identical
notification item twice (same endToEndId, txid t1, amount 1.00) changes the
ledger balance twice — 100 centavos after the first application, 200 after the
second — and appends the audit row twice.  `processPixItem` holds no
deduplication guard, so the second delivery is not a no-op. -/
theorem accrue_redelivery_double_counts :
    processPixItem itemDup dbEmpty = .ok ⟨[recebDup], [⟨sTx1, 100, none, 50⟩]⟩
      ∧ (processPixItem itemDup dbEmpty).bind (processPixItem itemDup)
          = .ok ⟨[recebDup, recebDup], [⟨sTx1, 200, some sHor, 50⟩]⟩
      ∧ (200 : ℚ) ≠ 100 := by
  refine ⟨?_, ?_, by norm_num⟩ <;>
    · simp [processPixItem, itemDup, dbEmpty, truthyS, truthyQ, jsRound, sqlRound2,
        fichaDefault, Except.bind, recebDup, sTx1, sEeid, sChave, sHor, sNome]
      norm_num

/-- Claim C4: on a fresh txid t1, accruing 10.005 and then 5.00 rounds to the
smallest currency unit at each step, not at read time: the first accrual
stores round(10.005 * 100) = 1001 centavos, the second adds round(5.00 * 100)
= 500, leaving the accrued balance at 1501 centavos — the centavos encoding
of 15.01 (round-then-sum; summing first and rounding once would give the same
here, but the stored intermediate value is already rounded to 1001). -/
theorem accrue_rounds_at_each_step :
    processPixItem itemTenPoint dbEmpty = .ok ⟨[], [⟨sTx1, 1001, none, 50⟩]⟩
      ∧ (processPixItem itemTenPoint dbEmpty).bind (processPixItem itemFive)
          = .ok ⟨[], [⟨sTx1, 1501, none, 50⟩]⟩
      ∧ (1501 : ℚ) / 100 = 15.01 := by
  refine ⟨?_, ?_, by norm_num⟩ <;>
    · norm_num [processPixItem, itemTenPoint, itemFive, dbEmpty, truthyS, truthyQ,
        jsRound, sqlRound2, fichaDefault, Except.bind, sTx1]
      simp
      try norm_num

/-- Claim C5, counterexample: an item carrying only a txid and the negative
amount -5 (missing endToEndId, payer, key and timestamp, and with amount
below zero) still creates a consultas ledger entry with -500 centavos — the
ledger is changed although required fields are missing and the amount is not
strictly positive. -/
theorem partial_item_still_touches_ledger :
    processPixItem itemPartial dbEmpty = .ok ⟨[], [⟨sTx1, -500, none, 50⟩]⟩
      ∧ (DB.mk [] [⟨sTx1, -500, none, 50⟩]) ≠ dbEmpty := by
  constructor
  · simp [processPixItem, itemPartial, dbEmpty, truthyS, truthyQ, jsRound, fichaDefault,
      sTx1]
    norm_num
  · simp [dbEmpty]

/-- Claim C5, amended: the recebimentos audit row is only written when
endToEndId, txid, chave, valor and horario are all truthy; an item with a
falsy txid or a null valor causes no database change at all; and the original
invariant fails in the other direction: an item carrying only a txid and the
non-positive amount -5 — every other required field missing — still creates a
consultas ledger entry of -500 centavos. -/
theorem ledger_touch_condition (item : Item) (db db' : DB) :
    ((truthyS item.txid && item.valor.isSome) = false →
        processPixItem item db = .ok db)
      ∧ (processPixItem item db = .ok db' →
          (truthyS item.endToEndId && truthyS item.txid && truthyS item.chave &&
            truthyQ item.valor && truthyS item.horario) = false →
          db'.recebimentos = db.recebimentos)
      ∧ processPixItem itemPartial dbEmpty = .ok ⟨[], [⟨sTx1, -500, none, 50⟩]⟩ := by
  refine ⟨?_, ?_, ?_⟩
  · intro hc
    have hq : truthyQ item.valor = true → item.valor.isSome = true := truthyQ_isSome
    cases htx : truthyS item.txid with
    | false =>
      simp [processPixItem, htx]
    | true =>
      cases hvs : item.valor.isSome with
      | false =>
        have hqf : truthyQ item.valor = false := by
          cases hqq : truthyQ item.valor
          · rfl
          · rw [hq hqq] at hvs; cases hvs
        simp [processPixItem, htx, hvs, hqf]
      | true => rw [htx, hvs] at hc; cases hc
  · intro h hfive
    rw [processPixItem] at h
    simp only [hfive, Bool.false_eq_true, if_false] at h
    split at h
    · split at h
      · rw [Except.ok.injEq] at h
        subst h
        rfl
      · rw [Except.ok.injEq] at h
        subst h
        rfl
    · rw [Except.ok.injEq] at h
      subst h
      rfl
  · simp [processPixItem, itemPartial, dbEmpty, truthyS, truthyQ, jsRound,
      fichaDefault, sTx1]
    norm_num

/-- Witness for the amended claim C5: an item with no fields at all leaves
the database untouched. -/
theorem ledger_touch_condition_witness :
    processPixItem ⟨none, none, none, none, none, none⟩ dbEmpty = .ok dbEmpty :=
  (ledger_touch_condition ⟨none, none, none, none, none, none⟩ dbEmpty dbEmpty).1
    (by decide)

/-- Claim C6, code evaluated at the failing input: an authenticated webhook
request whose single batch item has all five checked fields truthy but no
gnExtras object makes the handler throw while binding the INSERT arguments;
the routing layer converts the throw into a 500 response with success false
instead of the 200 success acknowledgment the claim promises. -/
theorem webhook_bad_item_reports_failure :
    appWebhook envMain (reqTest (some [itemNoPagador])) dbEmpty
      = (⟨500, some false⟩, dbEmpty)
      ∧ (Resp.mk 500 (some false)) ≠ ⟨200, some true⟩ := by
  refine ⟨by decide, by decide⟩

/-- Claim C8, counterexample: with a configured shared secret equal to the
empty string, a request carrying the correct hidden test parameter takes the
test-mode branch and has the secret substituted as its credential, yet the
falsiness check on the credential rejects it with the invalid-credential
signal — the substitution does not make both checks pass. -/
theorem test_mode_empty_secret_rejected :
    isTest envEmptyHmac (reqTest none) = true
      ∧ hmacSent envEmptyHmac (reqTest none) = some envEmptyHmac.HMAC
      ∧ authCheck envEmptyHmac (reqTest none) = .invalidHmac := by
  decide

/-- Claim C8, amended: the authenticator rejects with the address signal when
the post-override source address differs from the trusted address; with the
address check passed, it rejects with the invalid-credential signal when the
post-override token differs from the configured secret; it proceeds only when
both checks pass; and the hidden test parameter matching the test password
makes both checks pass provided the configured secret is non-empty (an empty
secret is treated as a missing credential and rejected even in test mode). -/
theorem authCheck_decision (env : Env) (req : WebhookReq) :
    (clientIpPost env req ≠ some env.EFI_IP → authCheck env req = .ipDenied)
      ∧ (clientIpPost env req = some env.EFI_IP →
          hmacSent env req ≠ some env.HMAC → authCheck env req = .invalidHmac)
      ∧ (authCheck env req = .ok →
          clientIpPost env req = some env.EFI_IP ∧ hmacSent env req = some env.HMAC)
      ∧ (req.hideValue = some env.TEST_PASS → env.HMAC ≠ "" →
          authCheck env req = .ok) := by
  refine ⟨?_, ?_, ?_, ?_⟩
  · intro h
    simp [authCheck, h]
  · intro hip hh
    simp [authCheck, hip, hh]
  · intro h
    rw [authCheck] at h
    split at h
    · cases h
    next hip =>
      split at h
      · cases h
      next hcond =>
        refine ⟨not_not.mp hip, ?_⟩
        simp only [Bool.or_eq_true, not_or, decide_eq_true_eq] at hcond
        exact not_not.mp hcond.2
  · intro hhide hne
    have ht : isTest env req = true := by simp [isTest, hhide]
    simp [authCheck, clientIpPost, hmacSent, ht, hmacFalsy, hne]

/-- Witness for the amended claim C8: a normally configured environment with
a matching hidden test parameter is accepted. -/
theorem authCheck_decision_witness :
    authCheck envMain (reqTest none) = .ok :=
  (authCheck_decision envMain (reqTest none)).2.2.2 (by decide) (by decide)

/-- Claim C9, code evaluated at the failing interleaving: on a ledger entry
with balance 5 and unit price 1 (so the answered value equals the balance),
the schedule in which both calls run their SELECT before either runs its
UPDATE makes both concurrent consume calls finish with the full value 5 —
a double payout.  The serialized schedule, by contrast, gives one caller 5
and the other 0.  Nothing in the handler makes the SELECT and the UPDATE
atomic with respect to a concurrent call. -/
theorem concurrent_consume_double_payout :
    consumeRace (some sTx) [true, false, true, false] ([rowRace], .start, .start)
      = ([rowRace0], .finished (.ok 5), .finished (.ok 5))
      ∧ consumeRace (some sTx) [true, true, false, false] ([rowRace], .start, .start)
        = ([rowRace0], .finished (.ok 5), .finished (.ok 0))
      ∧ rowRace.valor = 5 := by
  refine ⟨?_, ?_, rfl⟩ <;>
    · simp [consumeRace, consumeStep, lookupConsulta, zeroValor, pulsos,
        rowRace, rowRace0, sTx]
      try norm_num

/-- Claim C10: a request to the database dump endpoint whose db parameter is
not exactly recebimentos or consultas (including an absent parameter) is
answered 403 with no query issued, and any table name that reaches the SQL
interpolation is one of the two whitelisted names. -/
theorem consulta_database_whitelist (q : Option String) :
    ((q ≠ some tblRecebimentos ∧ q ≠ some tblConsultas) →
        appConsultaDatabase q = ⟨403, none⟩)
      ∧ (∀ t, (appConsultaDatabase q).queriedTable = some t →
          t = tblRecebimentos ∨ t = tblConsultas) := by
  constructor
  · rintro ⟨h1, h2⟩
    simp [appConsultaDatabase, h1, h2]
  · intro t ht
    rw [appConsultaDatabase] at ht
    split at ht
    next hin =>
      rcases hin with h | h <;> rw [h] at ht <;>
        simp only [DbOut.mk.injEq, Option.some.injEq] at ht
      · exact Or.inl ht.symm
      · exact Or.inr ht.symm
    next => cases ht

/-- Witness for claim C10: a non-whitelisted parameter is answered 403 with
no query. -/
theorem consulta_database_whitelist_witness :
    appConsultaDatabase (some sOther) = ⟨403, none⟩ :=
  (consulta_database_whitelist (some sOther)).1 (by decide)

end PixWorker
